import Mathlib

/-! Shallow embedding of the wallet session manager of this repository:
the later (localStorage-persisting) variant of
src/src/app/services/wallet.service.ts, the chain-id configuration
(CHAIN_CONFIG), and WalletAddressFormatPipe.transform.

The service's mutable state is the four BehaviorSubject channels
(account, chainId, loading, error), the persistent store slot under
LOCAL_STORAGE_KEY, and the stream of toastr notifications. Each
synchronous segment of the service (the part of an operation that runs
without an intervening await/promise resolution) is one state-transition
function; a subscriber's observation points are the states between
segments, exactly as delimited by the code's suspension points. -/

namespace WagmiStarter

/-- Chain ids from the configuration module src/src/app/config:
CHAIN_CONFIG maps mainnet to mainnet.id (1) and holesky to holesky.id
(17000). -/
structure ChainConfig where
  mainnet : Nat
  holesky : Nat
deriving DecidableEq

/-- The CHAIN_CONFIG constant. -/
def CHAIN_CONFIG : ChainConfig := { mainnet := 1, holesky := 17000 }

/-- A provider account object (GetAccountReturnType) as the service reads
it: the code uses account.chain?.id (field chain below holds the id of the
matched configured chain object, absent when disconnected or when the
chain is not configured), account.chainId, and account.isConnected. -/
structure Account where
  address : Option String
  chainId : Option Nat
  chain : Option Nat
  isConnected : Bool
deriving DecidableEq

/-- The JSON projection written by saveConnectionState: an object with
fields address, chainId, isConnected. The address field holds whatever
value the caller passed (connectWallet passes result.accounts[0], which
is absent when the accounts list is empty; reconnectWallet passes
result.account). -/
structure SavedRecord where
  address : Option String
  chainId : Option Nat
  isConnected : Bool
deriving DecidableEq

/-- Content of the persistent store under LOCAL_STORAGE_KEY: either the
JSON text of a saved record, on which JSON.parse succeeds and yields the
record, or any other text, on which JSON.parse throws. saveConnectionState
only ever writes record text. -/
inductive StoredText where
  | json (record : SavedRecord)
  | garbage (text : String)
deriving DecidableEq

/-- JSON.parse specialised to the stored text: succeeds exactly on the
serialised record text. -/
def jsonParse : StoredText → Option SavedRecord
  | .json record => some record
  | .garbage _ => none

/-- A value published on the account channel: either a live provider
account (from getAccount, a connect result path, or the account watcher)
or a parsed persisted record (the restore path of updateAccount publishes
the JSON.parse result as-is, which has the SavedRecord shape, not the
GetAccountReturnType shape). -/
inductive AccountView where
  | live (account : Account)
  | saved (record : SavedRecord)
deriving DecidableEq

/-- An arbitrary JavaScript error-ish value as handleConnectionError
inspects it: an optional name field, an optional message field (none
models an absent or undefined field; some of the empty string models a
present but empty message, which is falsy in JavaScript), and whether the
value is an instance of Error. -/
structure JsError where
  name : Option String
  message : Option String
  isError : Bool
deriving DecidableEq

/-- The value published on the error channel by handleConnectionError:
the original value when it was already an instance of Error, otherwise
new Error(errorMessage). -/
inductive PublishedError where
  | original (e : JsError)
  | wrapped (message : String)
deriving DecidableEq

/-- The observable state of the WalletService between suspension points:
the four BehaviorSubject channels, the persistent store slot under
LOCAL_STORAGE_KEY, and the list of toastr notifications
(message, title) emitted so far. The BehaviorSubject initial values are
undefined, null, false, null; the toast list starts empty. -/
structure WalletState where
  accountChannel : Option AccountView
  chainIdChannel : Option Nat
  loadingChannel : Bool
  errorChannel : Option PublishedError
  store : Option StoredText
  toasts : List (String × String)
deriving DecidableEq

/-- The JavaScript expression x || null on an optional number: 0 is falsy
and also becomes null. -/
def jsOrNull : Option Nat → Option Nat
  | some n => if n = 0 then none else some n
  | none => none

/-- updateChainId: publish getAccount(wagmiConfig)?.chain?.id || null on
the chainId channel. The live parameter is the getAccount result at call
time. -/
def updateChainId (live : Account) (s : WalletState) : WalletState :=
  { s with chainIdChannel := jsOrNull live.chain }

/-- Synchronous prefix of reconnectWallet, the part before its await:
loading set true, error cleared. The continuation after the provider
reconnect settles is a separate event (reconnectOnSuccess or
reconnectOnError). -/
def reconnectStart (s : WalletState) : WalletState :=
  { s with loadingChannel := true, errorChannel := none }

/-- saveConnectionState: serialise the record with JSON.stringify and
write it to the store under LOCAL_STORAGE_KEY. -/
def saveConnectionState (address : Option String) (chainId : Option Nat)
    (isConnected : Bool) (s : WalletState) : WalletState :=
  { s with store := some (StoredText.json
      { address := address, chainId := chainId, isConnected := isConnected }) }

/-- clearConnectionState: remove the persisted record from the store. -/
def clearConnectionState (s : WalletState) : WalletState :=
  { s with store := none }

/-- Message resolution of handleConnectionError: the fixed message for a
UserRejectedRequestError name, else the error's message field when it is
truthy (present and non-empty), else the generic fallback. The
else-if branch of the source tests the JavaScript truthiness of
error?.message, so an empty message falls through to the fallback. -/
def resolveErrorMessage (e : JsError) : String :=
  if e.name = some "UserRejectedRequestError" then
    "You rejected the wallet connection request."
  else
    match e.message with
    | some m =>
        if m = "" then "An unknown error occurred. Please try again." else m
    | none => "An unknown error occurred. Please try again."

/-- handleConnectionError: publish the error on the error channel,
wrapped as new Error(errorMessage) when it was not an instance of Error,
and emit one toastr.error(errorMessage, title Connection Failed). -/
def handleConnectionError (e : JsError) (s : WalletState) : WalletState :=
  let errorMessage := resolveErrorMessage e
  { s with
      errorChannel := some (if e.isError then PublishedError.original e
        else PublishedError.wrapped errorMessage),
      toasts := s.toasts ++ [(errorMessage, "Connection Failed")] }

/-- updateAccount of the later variant: when a record is persisted, it
calls reconnectWallet, whose synchronous prefix (loading true, error
cleared) runs immediately while the reconnect itself is fire-and-forget,
then parses the record and publishes the parse result on the account
channel; a JSON.parse failure is caught and logged and nothing further
happens in this segment. When no record is persisted it publishes the
live getAccount result. -/
def updateAccount (live : Account) (s : WalletState) : WalletState :=
  match s.store with
  | some savedState =>
      let s1 := reconnectStart s
      match jsonParse savedState with
      | some data => { s1 with accountChannel := some (AccountView.saved data) }
      | none => s1
  | none => { s with accountChannel := some (AccountView.live live) }

/-- Result shape of the provider reconnect primitive as the code reads
it: fields account, chainId, isConnected. -/
structure ReconnectResult where
  account : Option String
  chainId : Option Nat
  isConnected : Bool
deriving DecidableEq

/-- Continuation of reconnectWallet when the provider reconnect resolves:
saveConnectionState(result.account, result.chainId,
result.isConnected || false), then the finally clause sets loading
false. -/
def reconnectOnSuccess (result : ReconnectResult) (s : WalletState) : WalletState :=
  let s1 := saveConnectionState result.account result.chainId
    (result.isConnected || false) s
  { s1 with loadingChannel := false }

/-- Continuation of reconnectWallet when the provider reconnect rejects:
handleConnectionError, then the finally clause sets loading false. -/
def reconnectOnError (e : JsError) (s : WalletState) : WalletState :=
  { handleConnectionError e s with loadingChannel := false }

/-- initialize, run once by the service constructor: updateAccount then
updateChainId; the two watcher registrations that follow do not change
channel state. -/
def initSession (live : Account) (s : WalletState) : WalletState :=
  updateChainId live (updateAccount live s)

/-- The three supported connector kinds of connectWallet. -/
inductive ConnectorType where
  | injected
  | coinbase
  | walletConnect
deriving DecidableEq

/-- A constructed connector instance with its fixed configuration. -/
structure Connector where
  kind : ConnectorType
  appName : Option String
  projectId : Option String
  showQrModal : Option Bool
deriving DecidableEq

/-- Connector selection of connectWallet: injected takes no parameters,
coinbaseWallet is constructed with appName BX Dex, walletConnect with the
fixed project id and showQrModal true. -/
def chooseConnector : ConnectorType → Connector
  | .injected =>
      { kind := .injected, appName := none, projectId := none, showQrModal := none }
  | .coinbase =>
      { kind := .coinbase, appName := some "BX Dex", projectId := none,
        showQrModal := none }
  | .walletConnect =>
      { kind := .walletConnect, appName := none,
        projectId := some "5c2ca0dd3003fb371acdb8442a626a0c", showQrModal := some true }

/-- Result shape of the provider connect primitive as the code reads it:
an accounts list and a chainId. -/
structure ConnectResult where
  accounts : List String
  chainId : Nat
deriving DecidableEq

/-- Synchronous prefix of connectWallet: loading true, error cleared, and
the connector instance chosen from the connector type; the provider
connect call then suspends. -/
def connectWalletStart (connectorType : ConnectorType) (s : WalletState) :
    Connector × WalletState :=
  (chooseConnector connectorType,
    { s with loadingChannel := true, errorChannel := none })

/-- Success handler of connectWallet: updateAccount (reading the store as
it is at handler time), then saveConnectionState(result.accounts[0],
result.chainId, true || null) where true || null evaluates to true, then
loading false. -/
def connectWalletOnNext (result : ConnectResult) (live : Account)
    (s : WalletState) : WalletState :=
  let s1 := updateAccount live s
  let s2 := saveConnectionState result.accounts.head? (some result.chainId) true s1
  { s2 with loadingChannel := false }

/-- Error handler of connectWallet: handleConnectionError then loading
false. -/
def connectWalletOnError (e : JsError) (s : WalletState) : WalletState :=
  { handleConnectionError e s with loadingChannel := false }

/-- Synchronous prefix of disconnectWallet: loading true, error
cleared. -/
def disconnectStart (s : WalletState) : WalletState :=
  { s with loadingChannel := true, errorChannel := none }

/-- Success handler of disconnectWallet: account channel undefined,
chainId channel null, clearConnectionState, loading false. -/
def disconnectOnNext (s : WalletState) : WalletState :=
  let s1 := { s with accountChannel := none, chainIdChannel := none }
  let s2 := clearConnectionState s1
  { s2 with loadingChannel := false }

/-- Error handler of disconnectWallet: handleConnectionError then loading
false. -/
def disconnectOnError (e : JsError) (s : WalletState) : WalletState :=
  { handleConnectionError e s with loadingChannel := false }

/-- switchNetwork: call the provider switchChain with holesky.id and
return true when it resolves; on rejection route the error through
handleConnectionError and return false. The provider behaviour is the
function argument: its value at the requested chain id is none when the
call resolves and some e when it rejects with e. No loading or error
channel write happens outside the shared error routing. -/
def switchNetwork (switchChain : Nat → Option JsError) (s : WalletState) :
    Bool × WalletState :=
  match switchChain CHAIN_CONFIG.holesky with
  | none => (true, s)
  | some e => (false, handleConnectionError e s)

/-- Account watcher callback: publish account || undefined on the account
channel. -/
def watchAccountEvent (account : Option Account) (s : WalletState) : WalletState :=
  { s with accountChannel := account.map AccountView.live }

/-- Chain watcher callback: publish chainId || null on the chainId
channel. -/
def watchChainIdEvent (chainId : Nat) (s : WalletState) : WalletState :=
  { s with chainIdChannel := jsOrNull (some chainId) }

/-- The isConnected flag of a value on the account channel. -/
def viewIsConnected : AccountView → Bool
  | .live a => a.isConnected
  | .saved r => r.isConnected

/-- The chainId carried by a value on the account channel. -/
def viewChainId : AccountView → Option Nat
  | .live a => a.chainId
  | .saved r => r.chainId

/-- The account/chain consistency property of the spec at one observation
point: if the account channel holds a connected value, the chainId
channel equals that value's chainId; if the account channel is absent,
the chainId channel is absent. -/
def accountChainConsistentB (s : WalletState) : Bool :=
  match s.accountChannel with
  | none => s.chainIdChannel.isNone
  | some v =>
      if viewIsConnected v then s.chainIdChannel == viewChainId v else true

namespace WalletAddressFormatPipe

/-- JavaScript String.prototype.slice with nonnegative bounds, the
value.slice(0, 6) call, on the character list of the string. -/
def jsSlice (start stop : Nat) (v : List Char) : List Char :=
  (v.take stop).drop start

/-- JavaScript String.prototype.slice with a negative index, the
value.slice(-4) call: the last k characters (the whole string when it is
shorter than k). -/
def jsSliceLast (k : Nat) (v : List Char) : List Char :=
  v.drop (v.length - k)

/-- transform of WalletAddressFormatPipe on the character list of the
input string: short or empty input is returned as is, otherwise the
first six characters, a three-dot ellipsis, and the last four. -/
def transform (value : List Char) : List Char :=
  if value = [] ∨ value.length < 10 then value
  else jsSlice 0 6 value ++ [ '.', '.', '.' ] ++ jsSliceLast 4 value

end WalletAddressFormatPipe

/-- updateAccount never writes the chainId channel, whichever branch it
takes. -/
theorem updateAccount_chainId (live : Account) (s : WalletState) :
    (updateAccount live s).chainIdChannel = s.chainIdChannel := by
  unfold updateAccount
  cases s.store with
  | none => rfl
  | some st => cases st <;> rfl

/-- C3: a successful disconnect publishes the account channel absent and
the chainId channel absent and removes the persisted record; a failed
disconnect leaves the account channel, the chainId channel, and the
persisted record unchanged; in both cases loading ends at false. -/
theorem disconnect_success_clears_failure_preserves (s : WalletState) (e : JsError) :
    (disconnectOnNext (disconnectStart s)).accountChannel = none
    ∧ (disconnectOnNext (disconnectStart s)).chainIdChannel = none
    ∧ (disconnectOnNext (disconnectStart s)).store = none
    ∧ (disconnectOnNext (disconnectStart s)).loadingChannel = false
    ∧ (disconnectOnError e (disconnectStart s)).accountChannel = s.accountChannel
    ∧ (disconnectOnError e (disconnectStart s)).chainIdChannel = s.chainIdChannel
    ∧ (disconnectOnError e (disconnectStart s)).store = s.store
    ∧ (disconnectOnError e (disconnectStart s)).loadingChannel = false :=
  ⟨rfl, rfl, rfl, rfl, rfl, rfl, rfl, rfl⟩

/-- C6: after a failed connect, for every connector kind and every error
value, the persisted record is unchanged, the account and chainId
channels are unmutated, and loading returns to false. -/
theorem connect_failure_preserves_state (ct : ConnectorType) (e : JsError)
    (s : WalletState) :
    (connectWalletOnError e ((connectWalletStart ct s).2)).store = s.store
    ∧ (connectWalletOnError e ((connectWalletStart ct s).2)).accountChannel
        = s.accountChannel
    ∧ (connectWalletOnError e ((connectWalletStart ct s).2)).chainIdChannel
        = s.chainIdChannel
    ∧ (connectWalletOnError e ((connectWalletStart ct s).2)).loadingChannel = false :=
  ⟨rfl, rfl, rfl, rfl⟩

/-- C7: switchNetwork returns true exactly when the provider switchChain
call at the holesky chain id resolves; on resolution the state is
untouched; on any rejection it returns false after appending exactly one
notification titled Connection Failed and publishing the error on the
error channel; the loading channel is never written. -/
theorem switchNetwork_spec (switchChain : Nat → Option JsError) (s : WalletState) :
    ((switchNetwork switchChain s).1 = true ↔ switchChain CHAIN_CONFIG.holesky = none)
    ∧ (switchChain CHAIN_CONFIG.holesky = none → (switchNetwork switchChain s).2 = s)
    ∧ (∀ e, switchChain CHAIN_CONFIG.holesky = some e →
        (switchNetwork switchChain s).1 = false
        ∧ (switchNetwork switchChain s).2.toasts
            = s.toasts ++ [(resolveErrorMessage e, "Connection Failed")]
        ∧ (switchNetwork switchChain s).2.errorChannel
            = some (if e.isError then PublishedError.original e
                else PublishedError.wrapped (resolveErrorMessage e)))
    ∧ (switchNetwork switchChain s).2.loadingChannel = s.loadingChannel := by
  cases h : switchChain CHAIN_CONFIG.holesky with
  | none => simp [switchNetwork, h]
  | some e => simp [switchNetwork, h, handleConnectionError]

/-- C7 witness: a provider that resolves yields true and an unchanged
state at a concrete input. -/
theorem switchNetwork_spec_witness :
    (switchNetwork (fun _ => none)
        (⟨none, none, false, none, none, []⟩ : WalletState)).2
      = (⟨none, none, false, none, none, []⟩ : WalletState) :=
  (switchNetwork_spec (fun _ => none) ⟨none, none, false, none, none, []⟩).2.1 rfl

/-- C8 counterexample: the claim says an error carrying a message field
has that message used verbatim; the value whose message field holds the
empty string carries a message field, yet the resolved message is the
generic fallback, not the empty message, because the source tests
JavaScript truthiness of the field. -/
theorem resolveErrorMessage_empty_message_counterexample :
    JsError.message { name := none, message := some "", isError := false } = some ""
    ∧ resolveErrorMessage { name := none, message := some "", isError := false }
        = "An unknown error occurred. Please try again."
    ∧ "An unknown error occurred. Please try again." ≠ "" :=
  ⟨rfl, rfl, by decide⟩

/-- C8 amended: a UserRejectedRequestError name resolves to the fixed
rejection message; otherwise a present non-empty message field is used
verbatim; otherwise (message absent or empty, which is falsy) the generic
fallback is used; and in all cases the error is published on the error
channel, wrapped as an Error value when it was not one, and the resolved
message is appended to the notification sink with title Connection
Failed. -/
theorem handleConnectionError_spec (e : JsError) (s : WalletState) :
    (e.name = some "UserRejectedRequestError" →
      resolveErrorMessage e = "You rejected the wallet connection request.")
    ∧ (e.name ≠ some "UserRejectedRequestError" →
        ∀ m, e.message = some m → m ≠ "" → resolveErrorMessage e = m)
    ∧ (e.name ≠ some "UserRejectedRequestError" →
        (e.message = none ∨ e.message = some "") →
        resolveErrorMessage e = "An unknown error occurred. Please try again.")
    ∧ (handleConnectionError e s).errorChannel
        = some (if e.isError then PublishedError.original e
            else PublishedError.wrapped (resolveErrorMessage e))
    ∧ (handleConnectionError e s).toasts
        = s.toasts ++ [(resolveErrorMessage e, "Connection Failed")] := by
  refine ⟨?_, ?_, ?_, rfl, rfl⟩
  · intro h
    simp [resolveErrorMessage, h]
  · intro h m hm hne
    simp [resolveErrorMessage, h, hm, hne]
  · rintro h (hm | hm) <;> simp [resolveErrorMessage, h, hm]

/-- C8 witness: the user-rejection case resolved at a concrete error
value. -/
theorem handleConnectionError_spec_witness :
    resolveErrorMessage
        { name := some "UserRejectedRequestError", message := none, isError := true }
      = "You rejected the wallet connection request." :=
  (handleConnectionError_spec
    { name := some "UserRejectedRequestError", message := none, isError := true }
    ⟨none, none, false, none, none, []⟩).1 rfl

/-- C1 counterexample: starting from the initial state with no persisted
record, a successful injected connect whose account is connected on chain
17000 ends its synchronous segment with the connected account published
on the account channel while the chainId channel still holds its stale
absent value, so the account/chain consistency property fails at this
observation point. -/
theorem connect_breaks_account_chain_consistency :
    accountChainConsistentB
      (connectWalletOnNext { accounts := ["0xA"], chainId := 17000 }
        { address := some "0xA", chainId := some 17000, chain := some 17000,
          isConnected := true }
        ((connectWalletStart ConnectorType.injected
          (⟨none, none, false, none, none, []⟩ : WalletState)).2)) = false := by
  rfl

/-- C1 amended: the disconnect direction of the consistency invariant
holds — a successful disconnect clears the account and chainId channels
in the same synchronous segment, a consistent observation — but a
successful connect republishes only the account channel and leaves the
chainId channel exactly as it was, so a subscriber can observe a
connected account value next to a stale or absent chainId channel. -/
theorem disconnect_consistent_connect_leaves_chainId (s : WalletState)
    (ct : ConnectorType) (result : ConnectResult) (live : Account) :
    (disconnectOnNext (disconnectStart s)).accountChannel = none
    ∧ (disconnectOnNext (disconnectStart s)).chainIdChannel = none
    ∧ accountChainConsistentB (disconnectOnNext (disconnectStart s)) = true
    ∧ (connectWalletOnNext result live ((connectWalletStart ct s).2)).chainIdChannel
        = s.chainIdChannel := by
  refine ⟨rfl, rfl, rfl, ?_⟩
  show (updateAccount live ((connectWalletStart ct s).2)).chainIdChannel
    = s.chainIdChannel
  rw [updateAccount_chainId]
  rfl

/-- C2 counterexample: when an older record is persisted at handler time,
a successful connect does not republish the account channel from the
fresh provider query; it re-publishes the stale persisted record
instead. -/
theorem connect_republishes_stale_record :
    (connectWalletOnNext { accounts := ["0xNEW"], chainId := 17000 }
        { address := some "0xNEW", chainId := some 17000, chain := some 17000,
          isConnected := true }
        ((connectWalletStart ConnectorType.injected
          (⟨none, none, false, none,
            some (StoredText.json
              { address := some "0xOLD", chainId := some 1, isConnected := true }),
            []⟩ : WalletState)).2)).accountChannel
      = some (AccountView.saved
          { address := some "0xOLD", chainId := some 1, isConnected := true })
    ∧ (connectWalletOnNext { accounts := ["0xNEW"], chainId := 17000 }
        { address := some "0xNEW", chainId := some 17000, chain := some 17000,
          isConnected := true }
        ((connectWalletStart ConnectorType.injected
          (⟨none, none, false, none,
            some (StoredText.json
              { address := some "0xOLD", chainId := some 1, isConnected := true }),
            []⟩ : WalletState)).2)).accountChannel
      ≠ some (AccountView.live
          { address := some "0xNEW", chainId := some 17000, chain := some 17000,
            isConnected := true }) :=
  ⟨rfl, by decide⟩

/-- C2 amended: for every supported connector kind, a successful connect
persists a record with address equal to the first entry of the returned
accounts list, the returned chainId, and isConnected true, and ends with
loading false; the account channel is republished from the fresh provider
query only when no record was persisted at handler time — when a
parseable record was persisted, that old record is re-published instead
while a background reconnect is triggered. -/
theorem connectWallet_success_spec (ct : ConnectorType) (result : ConnectResult)
    (live : Account) (s : WalletState) (a : String) (rest : List String)
    (h : result.accounts = a :: rest) :
    (connectWalletOnNext result live ((connectWalletStart ct s).2)).store
        = some (StoredText.json
            { address := some a, chainId := some result.chainId, isConnected := true })
    ∧ (connectWalletOnNext result live ((connectWalletStart ct s).2)).loadingChannel
        = false
    ∧ (s.store = none →
        (connectWalletOnNext result live ((connectWalletStart ct s).2)).accountChannel
          = some (AccountView.live live))
    ∧ (∀ rec, s.store = some (StoredText.json rec) →
        (connectWalletOnNext result live ((connectWalletStart ct s).2)).accountChannel
          = some (AccountView.saved rec)) := by
  refine ⟨?_, rfl, ?_, ?_⟩
  · simp [connectWalletOnNext, saveConnectionState, h]
  · intro hs
    show (updateAccount live ((connectWalletStart ct s).2)).accountChannel
      = some (AccountView.live live)
    unfold updateAccount connectWalletStart
    simp only [hs]
  · intro rec hs
    show (updateAccount live ((connectWalletStart ct s).2)).accountChannel
      = some (AccountView.saved rec)
    unfold updateAccount connectWalletStart
    simp only [hs, jsonParse]

/-- C2 witness: the persist clause of the amended claim at a concrete
successful connect from a clean state. -/
theorem connectWallet_success_spec_witness :
    (connectWalletOnNext { accounts := ["0xW"], chainId := 5 }
        { address := some "0xW", chainId := some 5, chain := some 5,
          isConnected := true }
        ((connectWalletStart ConnectorType.injected
          (⟨none, none, false, none, none, []⟩ : WalletState)).2)).store
      = some (StoredText.json
          { address := some "0xW", chainId := some 5, isConnected := true }) :=
  (connectWallet_success_spec ConnectorType.injected
    { accounts := ["0xW"], chainId := 5 }
    { address := some "0xW", chainId := some 5, chain := some 5, isConnected := true }
    ⟨none, none, false, none, none, []⟩ "0xW" [] rfl).1

/-- C4 counterexample: with a persisted record that fails to parse, the
restore path does not behave as if no record were persisted — it
publishes nothing on the account channel, which keeps its initial absent
value, whereas with no record the live provider query result is
published. -/
theorem parse_failure_not_like_absent :
    (updateAccount
        { address := some "0xL", chainId := none, chain := none, isConnected := false }
        (⟨none, none, false, none, some (StoredText.garbage "not json"),
          []⟩ : WalletState)).accountChannel
      = none
    ∧ (updateAccount
        { address := some "0xL", chainId := none, chain := none, isConnected := false }
        (⟨none, none, false, none, none, []⟩ : WalletState)).accountChannel
      = some (AccountView.live
          { address := some "0xL", chainId := none, chain := none,
            isConnected := false }) :=
  ⟨rfl, rfl⟩

/-- C4 amended: a persisted record that fails to parse is caught locally
and logged and startup is not blocked, but the manager does not degrade
to a live provider query: the account channel is left unmutated, and the
validating reconnect launched before parsing has already set loading true
and cleared the error channel. -/
theorem updateAccount_parse_failure (live : Account) (s : WalletState)
    (g : String) (h : s.store = some (StoredText.garbage g)) :
    updateAccount live s = { s with loadingChannel := true, errorChannel := none } := by
  have hr : updateAccount live s = reconnectStart s := by
    unfold updateAccount
    rw [h]
    rfl
  rw [hr]
  rfl

/-- C4 witness: the amended behaviour at a concrete garbage record. -/
theorem updateAccount_parse_failure_witness :
    updateAccount
        { address := none, chainId := none, chain := none, isConnected := false }
        (⟨none, none, false, none, some (StoredText.garbage "oops"),
          []⟩ : WalletState)
      = { (⟨none, none, false, none, some (StoredText.garbage "oops"),
            []⟩ : WalletState) with
          loadingChannel := true, errorChannel := none } :=
  updateAccount_parse_failure
    { address := none, chainId := none, chain := none, isConnected := false }
    ⟨none, none, false, none, some (StoredText.garbage "oops"), []⟩ "oops" rfl

/-- C5 counterexample: with the persisted record of the scenario present
at restore, initialize publishes a value carrying that address on the
account channel, but the chainId channel does not emit 17000 — it holds
the live provider chain id, absent while the provider is not yet
reconnected. -/
theorem restore_does_not_publish_persisted_chainId :
    (initSession
        { address := none, chainId := none, chain := none, isConnected := false }
        (⟨none, none, false, none,
          some (StoredText.json
            { address := some "0xAB...1234", chainId := some 17000, isConnected := true }),
          []⟩ : WalletState)).accountChannel
      = some (AccountView.saved
          { address := some "0xAB...1234", chainId := some 17000, isConnected := true })
    ∧ (initSession
        { address := none, chainId := none, chain := none, isConnected := false }
        (⟨none, none, false, none,
          some (StoredText.json
            { address := some "0xAB...1234", chainId := some 17000, isConnected := true }),
          []⟩ : WalletState)).chainIdChannel
      = none :=
  ⟨rfl, rfl⟩

/-- C5 amended: when a parseable record is persisted at restore,
initialize publishes the parsed record, hence its address, on the account
channel within the same synchronous segment, before the validating
reconnect settles; the chainId channel emits the live provider chain id
(absent when the provider is not yet reconnected), not the persisted
chainId. -/
theorem initSession_restore (live : Account) (s : WalletState) (rec : SavedRecord)
    (h : s.store = some (StoredText.json rec)) :
    (initSession live s).accountChannel = some (AccountView.saved rec)
    ∧ (initSession live s).chainIdChannel = jsOrNull live.chain := by
  unfold initSession updateChainId updateAccount
  rw [h]
  exact ⟨rfl, rfl⟩

/-- C5 witness: the amended restore behaviour at a concrete persisted
record. -/
theorem initSession_restore_witness :
    (initSession
        { address := none, chainId := none, chain := none, isConnected := false }
        (⟨none, none, false, none,
          some (StoredText.json
            { address := some "0xCD", chainId := some 1, isConnected := true }),
          []⟩ : WalletState)).accountChannel
      = some (AccountView.saved
          { address := some "0xCD", chainId := some 1, isConnected := true }) :=
  (initSession_restore
    { address := none, chainId := none, chain := none, isConnected := false }
    ⟨none, none, false, none,
      some (StoredText.json
        { address := some "0xCD", chainId := some 1, isConnected := true }),
      []⟩
    { address := some "0xCD", chainId := some 1, isConnected := true } rfl).1

/-- C9 counterexample: a reconnect that resolves with a not-connected
result writes a persisted record whose isConnected field is false, so an
operation does write a record with isConnected false and the record can
exist while the last known intent was not connected. -/
theorem reconnect_persists_disconnected_record :
    (reconnectOnSuccess { account := none, chainId := none, isConnected := false }
        (⟨none, none, true, none, none, []⟩ : WalletState)).store
      = some (StoredText.json
          { address := none, chainId := none, isConnected := false })
    ∧ SavedRecord.isConnected
        { address := none, chainId := none, isConnected := false } = false :=
  ⟨rfl, rfl⟩

/-- C9 amended: connect success persists a record with isConnected true,
explicit disconnect removes the record, and failed operations leave the
store unchanged; but reconnectWallet persists the provider result's
isConnected flag verbatim, so a reconnect reporting a not-connected
result leaves a record with isConnected false in the store — record
existence does not coincide with connected intent. -/
theorem store_lifecycle (ct : ConnectorType) (result : ConnectResult)
    (live : Account) (r : ReconnectResult) (e : JsError) (s : WalletState) :
    (connectWalletOnNext result live ((connectWalletStart ct s).2)).store
        = some (StoredText.json
            { address := result.accounts.head?, chainId := some result.chainId,
              isConnected := true })
    ∧ (disconnectOnNext (disconnectStart s)).store = none
    ∧ (reconnectOnSuccess r s).store
        = some (StoredText.json
            { address := r.account, chainId := r.chainId,
              isConnected := r.isConnected })
    ∧ (connectWalletOnError e ((connectWalletStart ct s).2)).store = s.store
    ∧ (disconnectOnError e (disconnectStart s)).store = s.store
    ∧ (reconnectOnError e (reconnectStart s)).store = s.store := by
  refine ⟨rfl, rfl, ?_, rfl, rfl, rfl⟩
  simp [reconnectOnSuccess, saveConnectionState]

/-- C10: the wallet-address formatter returns, for every input of length
at least ten, the first six characters, the literal three-dot ellipsis,
and the last four characters, a result of length thirteen; every shorter
input, the empty string included, is returned unchanged. -/
theorem transform_spec (v : List Char) :
    (10 ≤ v.length →
      WalletAddressFormatPipe.transform v
          = v.take 6 ++ [ '.', '.', '.' ] ++ v.drop (v.length - 4)
        ∧ (WalletAddressFormatPipe.transform v).length = 13)
    ∧ (v.length < 10 → WalletAddressFormatPipe.transform v = v) := by
  constructor
  · intro h
    have hne : ¬(v = [] ∨ v.length < 10) := by
      rintro (rfl | hlt)
      · simp at h
      · omega
    have heq : WalletAddressFormatPipe.transform v
        = v.take 6 ++ [ '.', '.', '.' ] ++ v.drop (v.length - 4) := by
      unfold WalletAddressFormatPipe.transform WalletAddressFormatPipe.jsSlice
        WalletAddressFormatPipe.jsSliceLast
      rw [if_neg hne, List.drop_zero]
    refine ⟨heq, ?_⟩
    rw [heq]
    simp only [List.length_append, List.length_take, List.length_drop,
      List.length_cons, List.length_nil]
    omega
  · intro h
    unfold WalletAddressFormatPipe.transform
    rw [if_pos (Or.inr h)]

/-- C10 witness: the formatter evaluated on a twelve-character address
and the branch hypothesis discharged there. -/
theorem transform_spec_witness :
    WalletAddressFormatPipe.transform
        [ '0', 'x', '1', '2', '3', '4', '5', '6', '7', '8', '9', '0' ]
      = [ '0', 'x', '1', '2', '3', '4' ] ++ [ '.', '.', '.' ]
          ++ [ '7', '8', '9', '0' ] :=
  ((transform_spec
    [ '0', 'x', '1', '2', '3', '4', '5', '6', '7', '8', '9', '0' ]).1
    (by decide)).1

end WagmiStarter
